/-
Verification development for the DA7281 haptic-driver HAL
(src/da7281.c, src/da7281_i2c.c, include/da7281.h,
include/da7281_registers.h, include/da7281_config.h).

Shallow embedding conventions:
* C `float` values and constants are modelled as exact rationals (ℚ).  The
  float-to-integer casts of the source are modelled by explicit truncation /
  round-half-away helpers on ℚ; every use site only involves values far from
  a rounding boundary, so the ℚ results coincide with the IEEE-float results
  of the source.
* Machine integers are Nat with explicit `% 2^w` where the source narrows
  (the C cast of an out-of-range float to uint16_t/uint8_t is undefined
  behaviour; we model the common ARM lowering, reduction mod 2^w).
* Device handles are passed by value and returned updated, mirroring the
  mutation through the `da7281_device_t *` pointer.  NULL-pointer arguments
  are not representable (every claim quantifies over actual handles), so the
  DA7281_CHECK_NULL branches are not modelled.
* The FreeRTOS mutex, the TWI transport and the chip are the environment:
  an `Env` oracle decides, per primitive step, whether the primitive
  (mutex creation, TWI init, lock take, bus transaction) succeeds and which
  byte a read transaction returns.  Every bus-visible action is recorded in
  an event trace.
* `da7281.c` references several register-map symbols that the in-force
  `da7281_registers.h` revision no longer defines (the repository contains
  conflicting register-map revisions).  Those constants are modelled from
  the spec and are marked `Modelled from the spec:` below.
-/
import Mathlib

/-- Error codes of `da7281_error_t` (include/da7281.h lines 43-56).
`chipRevMismatch` also stands for the `DA7281_ERROR_CHIP_ID_MISMATCH`
symbol returned by da7281.c line 63, which the in-force header spells
`DA7281_ERROR_CHIP_REV_MISMATCH` (the spec's IdentityMismatch). -/
inductive da7281_error_t where
  | ok
  | nullPointer
  | invalidParam
  | i2cWrite
  | i2cRead
  | timeout
  | notInitialized
  | alreadyInitialized
  | chipRevMismatch
  | selftestFailed
  | mutexFailed
  | unknown
deriving DecidableEq, Repr

/-- Device handle `da7281_device_t` (include/da7281.h lines 93-99).
The opaque `twi_handle` pointer is not modelled; `mode` is kept as the raw
C enum integer value, since the source stores and compares it as an int. -/
structure da7281_device_t where
  twi_instance : Nat
  i2c_address : Nat
  initialized : Bool
  mode : Nat
deriving DecidableEq, Repr

/-- LRA configuration `da7281_lra_config_t` (include/da7281.h lines 82-88);
the C float fields are modelled as exact rationals. -/
structure da7281_lra_config_t where
  resonant_freq_hz : Nat
  impedance_ohm : ℚ
  nom_max_v_rms : ℚ
  abs_max_v_peak : ℚ
  max_current_ma : Nat
deriving DecidableEq, Repr

/- Register addresses and fields from the in-force include/da7281_registers.h. -/

def DA7281_REG_CHIP_REV : Nat := 0x00
def DA7281_REG_LRA_PER_H : Nat := 0x0A
def DA7281_REG_LRA_PER_L : Nat := 0x0B
def DA7281_REG_ACTUATOR_NOMMAX : Nat := 0x0C
def DA7281_REG_ACTUATOR_ABSMAX : Nat := 0x0D
def DA7281_REG_ACTUATOR_IMAX : Nat := 0x0E
def DA7281_REG_V2I_FACTOR_H : Nat := 0x0F
def DA7281_REG_V2I_FACTOR_L : Nat := 0x10
def DA7281_REG_TOP_CFG1 : Nat := 0x13
def DA7281_REG_TOP_CFG2 : Nat := 0x14
def DA7281_REG_TOP_CTL1 : Nat := 0x22
def DA7281_REG_TOP_CTL2 : Nat := 0x23

def DA7281_TOP_CTL1_OP_MODE_MASK : Nat := 0x07
def DA7281_TOP_CTL1_OP_MODE_SHIFT : Nat := 0

/- Operation-mode register codes, da7281_registers.h lines 166-171.  Note the
gap: STANDBY is 0x06 and the value 0x05 is not a legal mode in this
revision of the map. -/
def DA7281_OP_MODE_INACTIVE : Nat := 0x00
def DA7281_OP_MODE_DRO : Nat := 0x01
def DA7281_OP_MODE_PWM : Nat := 0x02
def DA7281_OP_MODE_RTWM : Nat := 0x03
def DA7281_OP_MODE_ETWM : Nat := 0x04
def DA7281_OP_MODE_STANDBY : Nat := 0x06

/-- The six legal enumerated operation modes (`da7281_operation_mode_t`,
include/da7281.h lines 61-68, via the OP_MODE codes above). -/
def da7281_legal_op_modes : List Nat :=
  [DA7281_OP_MODE_INACTIVE, DA7281_OP_MODE_DRO, DA7281_OP_MODE_PWM,
   DA7281_OP_MODE_RTWM, DA7281_OP_MODE_ETWM, DA7281_OP_MODE_STANDBY]

/- C enum members DA7281_MODE_* of da7281_operation_mode_t equal the
OP_MODE codes (include/da7281.h lines 62-67). -/
def DA7281_MODE_INACTIVE : Nat := DA7281_OP_MODE_INACTIVE
def DA7281_MODE_STANDBY : Nat := DA7281_OP_MODE_STANDBY

def DA7281_TOP_CFG1_AMP_EN : Nat := 0x08
def DA7281_TOP_CFG1_ACTUATOR_TYPE : Nat := 0x20
def DA7281_ACTUATOR_TYPE_LRA : Nat := 0x20

/-- Expected chip revision, da7281_registers.h line 215 (0xCA). -/
def DA7281_CHIP_REV_VALUE : Nat := 0xCA
/-- Legacy chip revision observed on early boards, da7281_registers.h
line 217 (0xBA).  No code in the repository reads this constant. -/
def DA7281_CHIP_REV_LEGACY_VALUE : Nat := 0xBA

/- Scaling constants of the in-force da7281_registers.h (lines 198-212),
as exact rationals. -/

/-- Value 23.4 (mV per LSB), da7281_registers.h line 198. -/
def DA7281_ACTUATOR_NOMMAX_SCALE : ℚ := 117/5
/-- Value 23.4 (mV per LSB), da7281_registers.h line 201. -/
def DA7281_ACTUATOR_ABSMAX_SCALE : ℚ := 117/5
/-- Value 28.6 (mA offset of the datasheet IMAX formula),
da7281_registers.h line 204. -/
def DA7281_ACTUATOR_IMAX_OFFSET : ℚ := 143/5
/-- Value 7.2 (mA per LSB), da7281_registers.h line 205. -/
def DA7281_ACTUATOR_IMAX_SCALE : ℚ := 36/5
/-- Value 1.33332e-9 (seconds per LSB), da7281_registers.h line 208. -/
def DA7281_LRA_PER_TIME_SCALE : ℚ := 133332 / 10^14

/- Symbols referenced by da7281.c that the in-force da7281_registers.h no
longer defines.  The repository's register maps conflict (spec section 9);
these are modelled from the spec and the in-force header. -/

/-- Modelled from the spec: `DA7281_REG_CHIP_ID`, the identity/revision
register read first by init ("reads a revision/identity register"); the
in-force map has the single identity register CHIP_REV at 0x00. -/
def DA7281_REG_CHIP_ID : Nat := DA7281_REG_CHIP_REV
/-- Modelled from the spec: `DA7281_CHIP_ID_VALUE`, the current accepted
identity value; the in-force header's current revision value is 0xCA. -/
def DA7281_CHIP_ID_VALUE : Nat := DA7281_CHIP_REV_VALUE
/-- Modelled from the spec: `DA7281_TOP_CFG2_MOTOR_TYPE_MASK`, the masked
actuator-type field ("forces actuator type to the resonant-actuator
configuration via a masked write"); bit value from the in-force
ACTUATOR_TYPE field. -/
def DA7281_TOP_CFG2_MOTOR_TYPE_MASK : Nat := DA7281_TOP_CFG1_ACTUATOR_TYPE
/-- Modelled from the spec: `DA7281_MOTOR_TYPE_LRA`, the resonant-actuator
code written by init; value from the in-force ACTUATOR_TYPE_LRA. -/
def DA7281_MOTOR_TYPE_LRA : Nat := DA7281_ACTUATOR_TYPE_LRA
/-- Modelled from the spec: `DA7281_TOP_CFG1_OP_MODE_MASK`, the mode bits
("least-significant 3 bits of a specific control register"); the in-force
OP_MODE mask is 0x07. -/
def DA7281_TOP_CFG1_OP_MODE_MASK : Nat := DA7281_TOP_CTL1_OP_MODE_MASK
/-- Modelled from the spec: `DA7281_TOP_CFG1_OP_MODE_SHIFT`; the in-force
OP_MODE shift is 0. -/
def DA7281_TOP_CFG1_OP_MODE_SHIFT : Nat := DA7281_TOP_CTL1_OP_MODE_SHIFT
/-- Modelled from the spec: `DA7281_V2I_FACTOR_SCALE`, the factor 1.5 of
the code's documented formula V2I = Z * 1.5 (da7281.c lines 159-162). -/
def DA7281_V2I_FACTOR_SCALE : ℚ := 3/2
/-- Modelled from the spec: `DA7281_REG_GEN_CFG2`, the register holding the
override-enable bit used by set_override_amplitude; absent from the
in-force map, address chosen outside the mapped range. -/
def DA7281_REG_GEN_CFG2 : Nat := 0x30
/-- Modelled from the spec: `DA7281_GEN_CFG2_OVERRIDE_EN`, the
override-enable bit. -/
def DA7281_GEN_CFG2_OVERRIDE_EN : Nat := 0x01
/-- Modelled from the spec: `DA7281_REG_OVERRIDE_AMP`, the override-value
register ("the amplitude override register moves to a control register");
the in-force TOP_CTL2 holds the override value. -/
def DA7281_REG_OVERRIDE_AMP : Nat := DA7281_REG_TOP_CTL2
/-- Modelled from the spec: `DA7281_REG_SELFTEST_CFG`, the self-test
configuration/trigger register; absent from the in-force map. -/
def DA7281_REG_SELFTEST_CFG : Nat := 0x31
/-- Modelled from the spec: `DA7281_REG_SELFTEST_RESULT`, the self-test
result register; absent from the in-force map. -/
def DA7281_REG_SELFTEST_RESULT : Nat := 0x32
/-- Modelled from the spec: `DA7281_SELFTEST_RESULT_PASS`, the documented
pass pattern of the result register. -/
def DA7281_SELFTEST_RESULT_PASS : Nat := 0x01

/- Numeric-cast helpers for the float expressions of da7281.c. -/

/-- Truncation toward zero of a nonnegative value, as performed by a C
float-to-unsigned cast; every use site is nonnegative, where truncation
is the floor. -/
def cTrunc (q : ℚ) : Nat := (⌊q⌋).toNat

/-- Round to nearest with halves away from zero, as performed by C `roundf`
on the nonnegative values arising here. -/
def cRound (q : ℚ) : Nat := (⌊q + 1/2⌋).toNat

/-- Reduction of a Nat into uint8_t range.  A C cast of an out-of-range
float to uint8_t is undefined behaviour; this models the common ARM
lowering (truncation of the converted integer mod 2^8). -/
def cUInt8 (n : Nat) : Nat := n % 256

/-- Reduction of a Nat into uint16_t range.  A C cast of an out-of-range
float to uint16_t is undefined behaviour; this models the common ARM
lowering (truncation of the converted integer mod 2^16). -/
def cUInt16 (n : Nat) : Nat := n % 65536

/- The bus-transaction layer of src/da7281_i2c.c. -/

/-- Environment oracle standing for the FreeRTOS kernel, the TWI transport
and the chip: `ok n` decides whether the n-th fallible primitive (mutex
creation, TWI initialization, mutex take, bus transaction) succeeds, and
`byte n` is the byte delivered when the n-th primitive is a successful
read transaction. -/
structure Env where
  ok : Nat → Bool
  byte : Nat → Nat

/-- Bus-visible events: mutex take/give on a bus (da7281_i2c.c lines 239,
256, 315, 339) and attempted write/read transactions at a device address
(lines 249-253, 324-335). -/
inductive BusEvent where
  | lockTake (bus : Nat)
  | lockGive (bus : Nat)
  | txWrite (bus : Nat) (addr : Nat) (reg : Nat) (value : Nat)
  | txRead (bus : Nat) (addr : Nat) (reg : Nat)
deriving DecidableEq, Repr

/-- Process-wide state of da7281_i2c.c: the primitive-step counter, the
event trace, and the per-bus lazily created resources `s_i2c_mutex`,
`s_twi_initialized` and `s_twi_pins[..].configured` (lines 26-45). -/
structure I2CState where
  step : Nat
  trace : List BusEvent
  mutexCreated : Nat → Bool
  twiInited : Nat → Bool
  pinsConfigured : Nat → Bool

/-- Advance the primitive-step counter by one consumed primitive. -/
def I2CState.tick (s : I2CState) : I2CState := { s with step := s.step + 1 }

/-- Append one bus-visible event to the trace. -/
def I2CState.push (s : I2CState) (e : BusEvent) : I2CState :=
  { s with trace := s.trace ++ [e] }

/-- Function da7281_i2c_init_mutex (da7281_i2c.c lines 68-83): lazily
create the per-bus FreeRTOS mutex; a second call is a no-op success. -/
def da7281_i2c_init_mutex (env : Env) (inst : Nat) (s : I2CState) :
    da7281_error_t × I2CState :=
  if inst ≥ 2 then (.invalidParam, s)
  else if s.mutexCreated inst then (.ok, s)
  else if env.ok s.step then
    (.ok, { s.tick with mutexCreated := fun i => if i = inst then true else s.mutexCreated i })
  else (.mutexFailed, s.tick)

/-- Function da7281_i2c_init_twi (da7281_i2c.c lines 103-148): lazily
initialize the TWI peripheral; requires the pins to have been configured;
transport-init failure is reported as DA7281_ERROR_I2C_WRITE (line 140). -/
def da7281_i2c_init_twi (env : Env) (inst : Nat) (s : I2CState) :
    da7281_error_t × I2CState :=
  if inst ≥ 2 then (.invalidParam, s)
  else if s.twiInited inst then (.ok, s)
  else if ¬ s.pinsConfigured inst then (.invalidParam, s)
  else if env.ok s.step then
    (.ok, { s.tick with twiInited := fun i => if i = inst then true else s.twiInited i })
  else (.i2cWrite, s.tick)

/-- Function da7281_i2c_configure_pins (da7281_i2c.c lines 176-195). -/
def da7281_i2c_configure_pins (inst : Nat) (s : I2CState) :
    da7281_error_t × I2CState :=
  if inst ≥ 2 then (.invalidParam, s)
  else if s.twiInited inst then (.alreadyInitialized, s)
  else (.ok, { s with pinsConfigured := fun i => if i = inst then true else s.pinsConfigured i })

/-- Function da7281_write_register (da7281_i2c.c lines 218-268): lazy mutex
and TWI creation, mutex take with timeout, one two-byte write transaction,
unconditional mutex give, transport failure mapped to I2C_WRITE. -/
def da7281_write_register (env : Env) (device : da7281_device_t)
    (reg_addr value : Nat) (s : I2CState) : da7281_error_t × I2CState :=
  match da7281_i2c_init_mutex env device.twi_instance s with
  | (err, s) =>
    if err ≠ .ok then (err, s) else
    match da7281_i2c_init_twi env device.twi_instance s with
    | (err, s) =>
      if err ≠ .ok then (err, s) else
      if ¬ env.ok s.step then (.mutexFailed, s.tick) else
      let s := s.tick.push (.lockTake device.twi_instance)
      let txOk := env.ok s.step
      let s := (s.tick.push (.txWrite device.twi_instance device.i2c_address reg_addr value)).push
        (.lockGive device.twi_instance)
      if txOk then (.ok, s) else (.i2cWrite, s)

/-- Function da7281_read_register (da7281_i2c.c lines 293-351): lazy mutex
and TWI creation, mutex take, register-address write with repeated start
followed (on success) by a one-byte read, unconditional mutex give; either
transaction failing is reported as I2C_READ.  The read byte is returned;
on failure the out-parameter is left at the callers' zero initializer. -/
def da7281_read_register (env : Env) (device : da7281_device_t)
    (reg_addr : Nat) (s : I2CState) : da7281_error_t × Nat × I2CState :=
  match da7281_i2c_init_mutex env device.twi_instance s with
  | (err, s) =>
    if err ≠ .ok then (err, 0, s) else
    match da7281_i2c_init_twi env device.twi_instance s with
    | (err, s) =>
      if err ≠ .ok then (err, 0, s) else
      if ¬ env.ok s.step then (.mutexFailed, 0, s.tick) else
      let s := s.tick.push (.lockTake device.twi_instance)
      let txOk := env.ok s.step
      let s := s.tick
      if ¬ txOk then
        (.i2cRead, 0,
          (s.push (.txRead device.twi_instance device.i2c_address reg_addr)).push
            (.lockGive device.twi_instance))
      else
        let rxOk := env.ok s.step
        let b := env.byte s.step % 256
        let s := ((s.tick.push (.txRead device.twi_instance device.i2c_address reg_addr)).push
          (.lockGive device.twi_instance))
        if rxOk then (.ok, b, s) else (.i2cRead, 0, s)

/-- Byte combination of da7281_modify_register (da7281_i2c.c line 402):
new value = (old and not mask) or (value and mask), on uint8_t. -/
def da7281_modify_byte (old mask value : Nat) : Nat :=
  (old &&& (255 ^^^ mask)) ||| (value &&& mask)

/-- Function da7281_modify_register (da7281_i2c.c lines 382-415): a read of
the current byte through da7281_read_register, the masked combination,
then a write back through da7281_write_register.  Each of the two calls
takes and gives the per-bus mutex itself. -/
def da7281_modify_register (env : Env) (device : da7281_device_t)
    (reg_addr mask value : Nat) (s : I2CState) : da7281_error_t × I2CState :=
  match da7281_read_register env device reg_addr s with
  | (err, reg_value, s) =>
    if err ≠ .ok then (err, s) else
    da7281_write_register env device reg_addr (da7281_modify_byte reg_value mask value) s

/- The device-control core of src/da7281.c. -/

/-- Function da7281_set_operation_mode (da7281.c lines 346-388):
DA7281_CHECK_DEVICE, then DA7281_CHECK_RANGE(mode, DA7281_MODE_INACTIVE,
DA7281_MODE_STANDBY) (a contiguous 0..6 range check), the masked
read-modify-write of the mode bits, a verification read whose mismatch is
only logged, and finally the in-memory mode update. -/
def da7281_set_operation_mode (env : Env) (device : da7281_device_t)
    (mode : Nat) (s : I2CState) : da7281_error_t × da7281_device_t × I2CState :=
  if ¬ device.initialized then (.notInitialized, device, s) else
  if mode > DA7281_MODE_STANDBY then (.invalidParam, device, s) else
  let mode_value := (mode <<< DA7281_TOP_CFG1_OP_MODE_SHIFT) &&& DA7281_TOP_CFG1_OP_MODE_MASK
  match da7281_modify_register env device DA7281_REG_TOP_CFG1
      DA7281_TOP_CFG1_OP_MODE_MASK mode_value s with
  | (err, s) =>
    if err ≠ .ok then (err, device, s) else
    match da7281_read_register env device DA7281_REG_TOP_CFG1 s with
    | (_, _, s) =>
      (.ok, { device with mode := mode }, s)

/-- Function da7281_get_operation_mode (da7281.c lines 393-409):
DA7281_CHECK_DEVICE, read TOP_CFG1, extract the masked mode bits. -/
def da7281_get_operation_mode (env : Env) (device : da7281_device_t)
    (s : I2CState) : da7281_error_t × Nat × I2CState :=
  if ¬ device.initialized then (.notInitialized, 0, s) else
  match da7281_read_register env device DA7281_REG_TOP_CFG1 s with
  | (err, reg_value, s) =>
    if err ≠ .ok then (err, 0, s) else
    (.ok, (reg_value &&& DA7281_TOP_CFG1_OP_MODE_MASK) >>> DA7281_TOP_CFG1_OP_MODE_SHIFT, s)

/-- Function da7281_set_override_amplitude (da7281.c lines 414-437):
DA7281_CHECK_DEVICE, set the override-enable bit by read-modify-write,
then write the raw amplitude byte. -/
def da7281_set_override_amplitude (env : Env) (device : da7281_device_t)
    (amplitude : Nat) (s : I2CState) : da7281_error_t × I2CState :=
  if ¬ device.initialized then (.notInitialized, s) else
  match da7281_modify_register env device DA7281_REG_GEN_CFG2
      DA7281_GEN_CFG2_OVERRIDE_EN DA7281_GEN_CFG2_OVERRIDE_EN s with
  | (err, s) =>
    if err ≠ .ok then (err, s) else
    da7281_write_register env device DA7281_REG_OVERRIDE_AMP amplitude s

/-- Function da7281_set_amplifier_enable (da7281.c lines 442-460):
DA7281_CHECK_DEVICE, masked single-bit write of the amplifier-enable
flag. -/
def da7281_set_amplifier_enable (env : Env) (device : da7281_device_t)
    (enable : Bool) (s : I2CState) : da7281_error_t × I2CState :=
  if ¬ device.initialized then (.notInitialized, s) else
  da7281_modify_register env device DA7281_REG_TOP_CFG1 DA7281_TOP_CFG1_AMP_EN
    (if enable then DA7281_TOP_CFG1_AMP_EN else 0) s

/-- Function da7281_run_selftest (da7281.c lines 491-559):
DA7281_CHECK_DEVICE, save the mode, force INACTIVE when needed, trigger
the test, delay, read the result, compare to the pass pattern, best-effort
restore of the saved mode.  The vTaskDelay calls touch no bus state.  On
an error return the C leaves the `passed` out-parameter unwritten; the
model returns false there. -/
def da7281_run_selftest (env : Env) (device : da7281_device_t)
    (s : I2CState) : da7281_error_t × Bool × da7281_device_t × I2CState :=
  if ¬ device.initialized then (.notInitialized, false, device, s) else
  let saved_mode := device.mode
  match (if device.mode ≠ DA7281_MODE_INACTIVE then
          da7281_set_operation_mode env device DA7281_MODE_INACTIVE s
        else (.ok, device, s)) with
  | (err, device, s) =>
    if err ≠ .ok then (err, false, device, s) else
    match da7281_write_register env device DA7281_REG_SELFTEST_CFG 0x01 s with
    | (err, s) =>
      if err ≠ .ok then (err, false, device, s) else
      match da7281_read_register env device DA7281_REG_SELFTEST_RESULT s with
      | (err, result, s) =>
        if err ≠ .ok then (err, false, device, s) else
        let passed := result = DA7281_SELFTEST_RESULT_PASS
        if saved_mode ≠ DA7281_MODE_INACTIVE then
          match da7281_set_operation_mode env device saved_mode s with
          | (_, device, s) => (.ok, passed, device, s)
        else (.ok, passed, device, s)

/-- Function da7281_read_chip_id (da7281.c lines 564-570). -/
def da7281_read_chip_id (env : Env) (device : da7281_device_t)
    (s : I2CState) : da7281_error_t × Nat × I2CState :=
  da7281_read_register env device DA7281_REG_CHIP_ID s

/-- Function da7281_read_chip_revision (da7281.c lines 575-582). -/
def da7281_read_chip_revision (env : Env) (device : da7281_device_t)
    (s : I2CState) : da7281_error_t × Nat × I2CState :=
  da7281_read_register env device DA7281_REG_CHIP_REV s

/-- Function da7281_init (da7281.c lines 38-115): reject an initialized
handle, read and verify the chip identity, read the revision (failure
non-critical), force the motor type by read-modify-write, verification
read (result only logged), set the operation mode to INACTIVE through
da7281_set_operation_mode, and only then mark the handle initialized. -/
def da7281_init (env : Env) (device : da7281_device_t) (s : I2CState) :
    da7281_error_t × da7281_device_t × I2CState :=
  if device.initialized then (.alreadyInitialized, device, s) else
  match da7281_read_chip_id env device s with
  | (err, chip_id, s) =>
    if err ≠ .ok then (err, device, s) else
    if chip_id ≠ DA7281_CHIP_ID_VALUE then (.chipRevMismatch, device, s) else
    match da7281_read_chip_revision env device s with
    | (_, _, s) =>
      match da7281_modify_register env device DA7281_REG_TOP_CFG2
          DA7281_TOP_CFG2_MOTOR_TYPE_MASK DA7281_MOTOR_TYPE_LRA s with
      | (err, s) =>
        if err ≠ .ok then (err, device, s) else
        match da7281_read_register env device DA7281_REG_TOP_CFG2 s with
        | (_, _, s) =>
          match da7281_set_operation_mode env device DA7281_MODE_INACTIVE s with
          | (err, device, s) =>
            if err ≠ .ok then (err, device, s) else
            (.ok, { device with initialized := true, mode := DA7281_MODE_INACTIVE }, s)

/-- Function da7281_deinit (da7281.c lines 120-139): no-op success when not
initialized; best-effort mode reset and amplifier disable (results
discarded), then the handle is marked not initialized. -/
def da7281_deinit (env : Env) (device : da7281_device_t) (s : I2CState) :
    da7281_error_t × da7281_device_t × I2CState :=
  if ¬ device.initialized then (.ok, device, s) else
  match da7281_set_operation_mode env device DA7281_MODE_INACTIVE s with
  | (_, device, s) =>
    match da7281_set_amplifier_enable env device false s with
    | (_, s) =>
      (.ok, { device with initialized := false }, s)

/- LRA parameter computation and configuration, da7281.c lines 187-323. -/

/-- Period register value (da7281.c lines 205-213): period in seconds is
1/f, divided by DA7281_LRA_PER_TIME_SCALE, rounded by roundf, cast to
uint16_t, then clamped up to 1 when it came out 0. -/
def da7281_lra_per (freq : Nat) : Nat :=
  let lra_per := cUInt16 (cRound ((1 / (freq : ℚ)) / DA7281_LRA_PER_TIME_SCALE))
  if lra_per = 0 then 1 else lra_per

/-- V2I factor register value (da7281.c lines 239-246): impedance times
DA7281_V2I_FACTOR_SCALE, rounded, cast to uint16_t, clamped up to 1. -/
def da7281_v2i_factor (z : ℚ) : Nat :=
  let v2i := cUInt16 (cRound (z * DA7281_V2I_FACTOR_SCALE))
  if v2i = 0 then 1 else v2i

/-- Nominal-max register value (da7281.c lines 271-272): voltage times 1000
over DA7281_ACTUATOR_NOMMAX_SCALE, cast (truncated) to uint8_t. -/
def da7281_nommax (v : ℚ) : Nat :=
  cUInt8 (cTrunc (v * 1000 / DA7281_ACTUATOR_NOMMAX_SCALE))

/-- Absolute-max register value (da7281.c lines 288-289): voltage times
1000 over DA7281_ACTUATOR_ABSMAX_SCALE, cast (truncated) to uint8_t. -/
def da7281_absmax (v : ℚ) : Nat :=
  cUInt8 (cTrunc (v * 1000 / DA7281_ACTUATOR_ABSMAX_SCALE))

/-- Max-current register value (da7281.c lines 305-306): current in mA over
DA7281_ACTUATOR_IMAX_SCALE, cast (truncated) to uint8_t; no offset is
subtracted and no rounding is applied. -/
def da7281_imax (ma : Nat) : Nat :=
  cUInt8 (cTrunc ((ma : ℚ) / DA7281_ACTUATOR_IMAX_SCALE))

/-- The register/value pairs written by da7281_configure_lra, in source
order (da7281.c lines 218-315): period high then low byte, V2I factor high
then low byte, nominal max, absolute max, max current.  The pure value
computations are hoisted here; they touch no bus state. -/
def da7281_lra_write_plan (config : da7281_lra_config_t) : List (Nat × Nat) :=
  let lra_per := da7281_lra_per config.resonant_freq_hz
  let v2i := da7281_v2i_factor config.impedance_ohm
  [(DA7281_REG_LRA_PER_H, lra_per >>> 8),
   (DA7281_REG_LRA_PER_L, lra_per &&& 0xFF),
   (DA7281_REG_V2I_FACTOR_H, v2i >>> 8),
   (DA7281_REG_V2I_FACTOR_L, v2i &&& 0xFF),
   (DA7281_REG_ACTUATOR_NOMMAX, da7281_nommax config.nom_max_v_rms),
   (DA7281_REG_ACTUATOR_ABSMAX, da7281_absmax config.abs_max_v_peak),
   (DA7281_REG_ACTUATOR_IMAX, da7281_imax config.max_current_ma)]

/-- The write-and-abort chain of da7281_configure_lra (da7281.c lines
218-315): each register write in turn; the first da7281_write_register
call that does not return DA7281_OK ends the sequence and its error is the
result. -/
def da7281_write_chain (env : Env) (device : da7281_device_t) :
    List (Nat × Nat) → I2CState → da7281_error_t × I2CState
  | [], s => (.ok, s)
  | p :: rest, s =>
    match da7281_write_register env device p.1 p.2 s with
    | (err, s) =>
      if err ≠ .ok then (err, s) else
      da7281_write_chain env device rest s

/-- Function da7281_configure_lra (da7281.c lines 187-323):
DA7281_CHECK_DEVICE, the five DA7281_CHECK_RANGE validations (lines
194-198, each `(val < min) || (val > max)`), then the seven register
writes with first-failure abort. -/
def da7281_configure_lra (env : Env) (device : da7281_device_t)
    (config : da7281_lra_config_t) (s : I2CState) : da7281_error_t × I2CState :=
  if ¬ device.initialized then (.notInitialized, s) else
  if config.resonant_freq_hz < 50 ∨ 300 < config.resonant_freq_hz then (.invalidParam, s) else
  if config.impedance_ohm < 1 ∨ 50 < config.impedance_ohm then (.invalidParam, s) else
  if config.nom_max_v_rms < 1/2 ∨ 6 < config.nom_max_v_rms then (.invalidParam, s) else
  if config.abs_max_v_peak < 1 ∨ 12 < config.abs_max_v_peak then (.invalidParam, s) else
  if config.max_current_ma < 50 ∨ 500 < config.max_current_ma then (.invalidParam, s) else
  da7281_write_chain env device (da7281_lra_write_plan config) s

/- Specification-side formulas (for the refinement claims C3 and C4),
written from the words of spec.md section 4.3. -/

/-- Specification formula for the period code (spec.md section 4.3):
round(period_seconds over the time-scale constant), clamped to a minimum
of 1, with the in-force DA7281_LRA_PER_TIME_SCALE. -/
def spec_lra_per (freq : Nat) : Nat :=
  max 1 (cRound ((1 / (freq : ℚ)) / DA7281_LRA_PER_TIME_SCALE))

/-- Specification formula for the max-current code (spec.md section 4.3):
round((current_mA minus the offset constant) over the scale constant),
clamped to 0 if negative, with the in-force constants. -/
def spec_imax (ma : Nat) : Nat :=
  let q := (((ma : ℚ) - DA7281_ACTUATOR_IMAX_OFFSET) / DA7281_ACTUATOR_IMAX_SCALE)
  if q < 0 then 0 else cRound q

/- Trace observation helpers and concrete fixtures. -/

/-- The registers targeted by the write transactions of a trace, in
order. -/
def writeRegsOf (t : List BusEvent) : List Nat :=
  t.filterMap fun e => match e with
    | .txWrite _ _ reg _ => some reg
    | _ => none

/-- The (register, value) pairs of the write transactions of a trace, in
order. -/
def writeListOf (t : List BusEvent) : List (Nat × Nat) :=
  t.filterMap fun e => match e with
    | .txWrite _ _ reg value => some (reg, value)
    | _ => none

/-- Environment in which every primitive succeeds and every read delivers
the byte 0. -/
def envZero : Env := ⟨fun _ => true, fun _ => 0⟩

/-- Environment in which every primitive succeeds and every read delivers
the legacy chip revision 0xBA. -/
def envLegacy : Env := ⟨fun _ => true, fun _ => DA7281_CHIP_REV_LEGACY_VALUE⟩

/-- Bus state after pin configuration and first use: both buses have their
mutex, transport and pins ready, with an empty trace. -/
def readyS : I2CState := ⟨0, [], fun _ => true, fun _ => true, fun _ => true⟩

/-- A handle on bus 0 at address 0x4A that has not been initialized. -/
def devFresh : da7281_device_t := ⟨0, 0x4A, false, DA7281_MODE_INACTIVE⟩

/-- An initialized handle on bus 0 at address 0x4A in INACTIVE mode. -/
def devInit : da7281_device_t := ⟨0, 0x4A, true, DA7281_MODE_INACTIVE⟩

/-- The documented demonstration actuator (da7281.c lines 153-177 and
spec.md section 8): 170 Hz, 6.75 ohm, 2.5 V RMS, 3.5 V peak, 350 mA. -/
def cfgDemo : da7281_lra_config_t := ⟨170, 27/4, 5/2, 7/2, 350⟩

/-- The demonstration actuator with the out-of-range frequency 500 Hz of
spec.md section 8. -/
def cfgBadFreq : da7281_lra_config_t := ⟨500, 27/4, 5/2, 7/2, 350⟩

/- Shared lemmas. -/

/-- An operation guarded by DA7281_CHECK_DEVICE on a non-initialized handle
returns NOT_INITIALIZED with everything untouched (set_operation_mode
case). -/
theorem set_operation_mode_of_not_init (dev : da7281_device_t)
    (h : dev.initialized = false) (env : Env) (m : Nat) (s : I2CState) :
    da7281_set_operation_mode env dev m s = (.notInitialized, dev, s) := by
  simp [da7281_set_operation_mode, h]

/-- Claim C1: for every device handle whose initialized flag is false,
da7281_init never returns DA7281_OK under any bus environment — the final
step calls da7281_set_operation_mode before initialized is set, and that
call aborts with NOT_INITIALIZED via DA7281_CHECK_DEVICE — and the handle
is left not-initialized. -/
theorem C1_init_never_returns_ok (env : Env) (dev : da7281_device_t) (s : I2CState)
    (h : dev.initialized = false) :
    (da7281_init env dev s).1 ≠ da7281_error_t.ok ∧
    (da7281_init env dev s).2.1.initialized = false := by
  unfold da7281_init
  rw [h]
  simp only [Bool.false_eq_true, if_false]
  rcases h1 : da7281_read_chip_id env dev s with ⟨e1, v1, s1⟩
  dsimp only
  by_cases he1 : e1 = da7281_error_t.ok
  · subst he1
    simp only [ne_eq, not_true_eq_false, if_false, reduceIte]
    by_cases hv1 : v1 = DA7281_CHIP_ID_VALUE
    · simp only [hv1, ne_eq, not_true_eq_false, if_false, reduceIte]
      rcases h2 : da7281_read_chip_revision env dev s1 with ⟨e2, v2, s2⟩
      dsimp only
      rcases h3 : da7281_modify_register env dev DA7281_REG_TOP_CFG2
          DA7281_TOP_CFG2_MOTOR_TYPE_MASK DA7281_MOTOR_TYPE_LRA s2 with ⟨e3, s3⟩
      dsimp only
      by_cases he3 : e3 = da7281_error_t.ok
      · subst he3
        simp only [ne_eq, not_true_eq_false, if_false, reduceIte]
        rcases h4 : da7281_read_register env dev DA7281_REG_TOP_CFG2 s3 with ⟨e4, v4, s4⟩
        dsimp only
        rw [set_operation_mode_of_not_init dev h env DA7281_MODE_INACTIVE s4]
        exact ⟨by simp, h⟩
      · simp only [if_pos he3]
        exact ⟨he3, h⟩
    · simp only [if_pos hv1]
      exact ⟨by simp, h⟩
  · simp only [if_pos he1]
    exact ⟨he1, h⟩

/-- Witness for C1 at a concrete fresh handle and all-success bus. -/
theorem C1_init_never_returns_ok_witness :
    devFresh.initialized = false ∧
    ((da7281_init envZero devFresh readyS).1 ≠ da7281_error_t.ok ∧
     (da7281_init envZero devFresh readyS).2.1.initialized = false) :=
  ⟨rfl, C1_init_never_returns_ok envZero devFresh readyS rfl⟩

/-- Claim C2 (refuting evaluation): a single da7281_modify_register call on
an all-success bus produces a trace in which the per-bus lock is taken and
given TWICE — once inside the read, once inside the write, with a release
in between — not taken once across the whole read-modify-write as the
claim states. -/
theorem C2_modify_register_takes_lock_twice :
    (da7281_modify_register envZero devInit DA7281_REG_TOP_CTL1
        DA7281_TOP_CTL1_OP_MODE_MASK DA7281_OP_MODE_DRO readyS).2.trace =
      [BusEvent.lockTake 0, BusEvent.txRead 0 0x4A 0x22, BusEvent.lockGive 0,
       BusEvent.lockTake 0, BusEvent.txWrite 0 0x4A 0x22 0x01, BusEvent.lockGive 0] ∧
    ((da7281_modify_register envZero devInit DA7281_REG_TOP_CTL1
        DA7281_TOP_CTL1_OP_MODE_MASK DA7281_OP_MODE_DRO readyS).2.trace.count
      (BusEvent.lockTake 0)) = 2 := by decide

/-- Claim C3 (refuting evaluation): with the in-force
DA7281_LRA_PER_TIME_SCALE (1.33332e-9 s per LSB), the spec formula
round((1/f) over the scale) clamped to a minimum of 1 gives 4411809 at the
valid frequency 170 Hz — beyond the 16-bit register — while the code's
uint16_t value 20897 is what the configuration write plan splits into the
two period bytes (high byte first); the written period code therefore
cannot equal the claimed formula value. -/
theorem C3_period_code_overflows_register :
    spec_lra_per 170 = 4411809 ∧
    65535 < spec_lra_per 170 ∧
    da7281_lra_per 170 = 20897 ∧
    da7281_lra_per 170 ≠ spec_lra_per 170 ∧
    (da7281_lra_write_plan cfgDemo).take 2 =
      [(DA7281_REG_LRA_PER_H, da7281_lra_per 170 >>> 8),
       (DA7281_REG_LRA_PER_L, da7281_lra_per 170 &&& 0xFF)] := by
  have hf : ⌊1 / ((170:ℕ):ℚ) / DA7281_LRA_PER_TIME_SCALE + 1/2⌋ = 4411809 := by
    rw [Int.floor_eq_iff]
    norm_num [DA7281_LRA_PER_TIME_SCALE]
  have hs : spec_lra_per 170 = 4411809 := by
    unfold spec_lra_per cRound
    rw [hf]
    decide
  have hc : da7281_lra_per 170 = 20897 := by
    unfold da7281_lra_per cUInt16 cRound
    rw [hf]
    decide
  refine ⟨hs, by rw [hs]; decide, hc, by rw [hs, hc]; decide, ?_⟩
  simp [da7281_lra_write_plan, cfgDemo]

/-- Claim C4 (refuting evaluation): at the valid max current 350 mA the
code computes trunc(350 over 7.2) = 48 for the IMAX register — it never
subtracts DA7281_ACTUATOR_IMAX_OFFSET and truncates instead of rounding —
while the claimed formula round((350 - 28.6) over 7.2) clamped at 0 gives
45 (0x2D, the value the function's own doc comment expects); 48 is the
value the configuration write plan carries for the IMAX register. -/
theorem C4_imax_code_ignores_offset :
    da7281_imax 350 = 48 ∧
    spec_imax 350 = 45 ∧
    da7281_imax 350 ≠ spec_imax 350 ∧
    (da7281_lra_write_plan cfgDemo).getLast?
      = some (DA7281_REG_ACTUATOR_IMAX, da7281_imax 350) := by
  have h48 : da7281_imax 350 = 48 := by
    have hf : ⌊((350:ℕ):ℚ) / DA7281_ACTUATOR_IMAX_SCALE⌋ = 48 := by
      rw [Int.floor_eq_iff]
      norm_num [DA7281_ACTUATOR_IMAX_SCALE]
    unfold da7281_imax cUInt8 cTrunc
    rw [hf]
    decide
  have h45 : spec_imax 350 = 45 := by
    have hf : ⌊(((350:ℕ):ℚ) - DA7281_ACTUATOR_IMAX_OFFSET)
        / DA7281_ACTUATOR_IMAX_SCALE + 1/2⌋ = 45 := by
      rw [Int.floor_eq_iff]
      norm_num [DA7281_ACTUATOR_IMAX_OFFSET, DA7281_ACTUATOR_IMAX_SCALE]
    rw [spec_imax,
      if_neg (by norm_num [DA7281_ACTUATOR_IMAX_OFFSET, DA7281_ACTUATOR_IMAX_SCALE])]
    unfold cRound
    rw [hf]
    decide
  exact ⟨h48, h45, by rw [h48, h45]; decide,
    by simp [da7281_lra_write_plan, cfgDemo]⟩

/-- Claim C5 (refuting evaluation): the value 5 is not one of the six legal
enumerated modes of the in-force map (STANDBY is 6), yet
da7281_set_operation_mode on an initialized handle accepts it — the
DA7281_CHECK_RANGE guard only checks the contiguous range 0..6 — returns
DA7281_OK, issues a register write of the mode bits, and records mode 5 in
the handle. -/
theorem C5_illegal_mode_five_accepted :
    5 ∉ da7281_legal_op_modes ∧
    (da7281_set_operation_mode envZero devInit 5 readyS).1 = da7281_error_t.ok ∧
    (da7281_set_operation_mode envZero devInit 5 readyS).2.1.mode = 5 ∧
    devInit.mode ≠ 5 ∧
    writeRegsOf (da7281_set_operation_mode envZero devInit 5 readyS).2.2.trace
      = [DA7281_REG_TOP_CFG1] := by decide

/-- Claim C6 (refuting evaluation): when the identity read returns the
documented legacy revision value 0xBA, da7281_init rejects it with the
identity-mismatch error — only the single current value is accepted, the
legacy constant of the register map is never consulted — although it does
abort before any register write. -/
theorem C6_legacy_revision_rejected :
    DA7281_CHIP_REV_LEGACY_VALUE ≠ DA7281_CHIP_ID_VALUE ∧
    (da7281_init envLegacy devFresh readyS).1 = da7281_error_t.chipRevMismatch ∧
    writeRegsOf (da7281_init envLegacy devFresh readyS).2.2.trace = [] ∧
    (da7281_init envLegacy devFresh readyS).2.1.initialized = false := by decide

/-- Claim C7: on an initialized handle, an LRA configuration with at least
one parameter outside the documented bounds (frequency 50-300 Hz,
impedance 1-50 ohm, nominal RMS 0.5-6 V, peak 1-12 V, max current
50-500 mA) makes da7281_configure_lra return INVALID_PARAM with the bus
trace untouched — zero bus writes, under every environment. -/
theorem C7_invalid_config_rejected_early (env : Env) (dev : da7281_device_t)
    (cfg : da7281_lra_config_t) (s : I2CState)
    (hinit : dev.initialized = true)
    (hout : (cfg.resonant_freq_hz < 50 ∨ 300 < cfg.resonant_freq_hz) ∨
            (cfg.impedance_ohm < 1 ∨ 50 < cfg.impedance_ohm) ∨
            (cfg.nom_max_v_rms < 1/2 ∨ 6 < cfg.nom_max_v_rms) ∨
            (cfg.abs_max_v_peak < 1 ∨ 12 < cfg.abs_max_v_peak) ∨
            (cfg.max_current_ma < 50 ∨ 500 < cfg.max_current_ma)) :
    (da7281_configure_lra env dev cfg s).1 = da7281_error_t.invalidParam ∧
    (da7281_configure_lra env dev cfg s).2.trace = s.trace := by
  unfold da7281_configure_lra
  rw [if_neg (by simp [hinit])]
  by_cases hc1 : cfg.resonant_freq_hz < 50 ∨ 300 < cfg.resonant_freq_hz
  · rw [if_pos hc1]; exact ⟨rfl, rfl⟩
  · rw [if_neg hc1]
    by_cases hc2 : cfg.impedance_ohm < 1 ∨ 50 < cfg.impedance_ohm
    · rw [if_pos hc2]; exact ⟨rfl, rfl⟩
    · rw [if_neg hc2]
      by_cases hc3 : cfg.nom_max_v_rms < 1/2 ∨ 6 < cfg.nom_max_v_rms
      · rw [if_pos hc3]; exact ⟨rfl, rfl⟩
      · rw [if_neg hc3]
        by_cases hc4 : cfg.abs_max_v_peak < 1 ∨ 12 < cfg.abs_max_v_peak
        · rw [if_pos hc4]; exact ⟨rfl, rfl⟩
        · rw [if_neg hc4]
          by_cases hc5 : cfg.max_current_ma < 50 ∨ 500 < cfg.max_current_ma
          · rw [if_pos hc5]; exact ⟨rfl, rfl⟩
          · rcases hout with h|h|h|h|h
            exacts [absurd h hc1, absurd h hc2, absurd h hc3, absurd h hc4, absurd h hc5]

/-- Witness for C7 at the 500 Hz out-of-range example. -/
theorem C7_invalid_config_rejected_early_witness :
    devInit.initialized = true ∧
    (cfgBadFreq.resonant_freq_hz < 50 ∨ 300 < cfgBadFreq.resonant_freq_hz) ∧
    ((da7281_configure_lra envZero devInit cfgBadFreq readyS).1 = da7281_error_t.invalidParam ∧
     (da7281_configure_lra envZero devInit cfgBadFreq readyS).2.trace = readyS.trace) :=
  ⟨rfl, Or.inr (by decide),
   C7_invalid_config_rejected_early envZero devInit cfgBadFreq readyS rfl
     (Or.inl (Or.inr (by decide)))⟩

/-- Claim C9: for every old register byte, every 8-bit mask and every new
value, the byte written back by modify_register is
(old and not mask) or (value and mask), and the bits outside the mask are
unchanged: result and not-mask equals old and not-mask. -/
theorem C9_modify_preserves_unmasked_bits (old mask value : Nat)
    (hm : mask < 256) :
    da7281_modify_byte old mask value
      = (old &&& (255 ^^^ mask)) ||| (value &&& mask) ∧
    da7281_modify_byte old mask value &&& (255 ^^^ mask)
      = old &&& (255 ^^^ mask) := by
  refine ⟨rfl, ?_⟩
  apply Nat.eq_of_testBit_eq
  intro i
  by_cases hi : i < 8
  · have h255 : Nat.testBit 255 i = true := by interval_cases i <;> rfl
    simp only [da7281_modify_byte, Nat.testBit_land, Nat.testBit_lor,
      Nat.testBit_xor, h255]
    cases old.testBit i <;> cases value.testBit i <;> cases mask.testBit i <;> rfl
  · have hge : 8 ≤ i := Nat.le_of_not_lt hi
    have hpow : (256 : Nat) ≤ 2 ^ i := by
      calc (256 : Nat) = 2 ^ 8 := rfl
        _ ≤ 2 ^ i := Nat.pow_le_pow_right (by norm_num) hge
    have hm8 : mask.testBit i = false :=
      Nat.testBit_eq_false_of_lt (Nat.lt_of_lt_of_le hm hpow)
    have h255 : Nat.testBit 255 i = false :=
      Nat.testBit_eq_false_of_lt (Nat.lt_of_lt_of_le (by norm_num) hpow)
    simp only [da7281_modify_byte, Nat.testBit_land, Nat.testBit_lor,
      Nat.testBit_xor, h255, hm8]
    cases old.testBit i <;> cases value.testBit i <;> rfl

/-- Witness for C9 at the worked example of the modify_register doc comment
(old 0xCC, mask 0x3C, new bits 0x28). -/
theorem C9_modify_preserves_unmasked_bits_witness :
    (0x3C : Nat) < 256 ∧
    (da7281_modify_byte 0xCC 0x3C 0x28
       = (0xCC &&& (255 ^^^ 0x3C)) ||| (0x28 &&& 0x3C) ∧
     da7281_modify_byte 0xCC 0x3C 0x28 &&& (255 ^^^ 0x3C)
       = 0xCC &&& (255 ^^^ 0x3C)) :=
  ⟨by decide, C9_modify_preserves_unmasked_bits 0xCC 0x3C 0x28 (by decide)⟩

/-- Claim C10: on a handle whose initialized flag is false, each
mode-dependent operation — set_operation_mode, get_operation_mode,
set_amplifier_enable, set_override_amplitude, configure_lra and
run_selftest — returns NOT_INITIALIZED regardless of its other arguments,
with the handle and the whole bus state (hence its trace) untouched, under
every environment. -/
theorem C10_not_initialized_guards (env : Env) (dev : da7281_device_t)
    (s : I2CState) (mode amplitude : Nat) (enable : Bool)
    (cfg : da7281_lra_config_t) (h : dev.initialized = false) :
    da7281_set_operation_mode env dev mode s = (.notInitialized, dev, s) ∧
    da7281_get_operation_mode env dev s = (.notInitialized, 0, s) ∧
    da7281_set_amplifier_enable env dev enable s = (.notInitialized, s) ∧
    da7281_set_override_amplitude env dev amplitude s = (.notInitialized, s) ∧
    da7281_configure_lra env dev cfg s = (.notInitialized, s) ∧
    da7281_run_selftest env dev s = (.notInitialized, false, dev, s) := by
  refine ⟨?_, ?_, ?_, ?_, ?_, ?_⟩ <;>
    simp [da7281_set_operation_mode, da7281_get_operation_mode,
      da7281_set_amplifier_enable, da7281_set_override_amplitude,
      da7281_configure_lra, da7281_run_selftest, h]

/-- Witness for C10 at a concrete fresh handle and concrete arguments. -/
theorem C10_not_initialized_guards_witness :
    devFresh.initialized = false ∧
    (da7281_set_operation_mode envZero devFresh 1 readyS
       = (.notInitialized, devFresh, readyS) ∧
     da7281_get_operation_mode envZero devFresh readyS
       = (.notInitialized, 0, readyS) ∧
     da7281_set_amplifier_enable envZero devFresh true readyS
       = (.notInitialized, readyS) ∧
     da7281_set_override_amplitude envZero devFresh 128 readyS
       = (.notInitialized, readyS) ∧
     da7281_configure_lra envZero devFresh cfgDemo readyS
       = (.notInitialized, readyS) ∧
     da7281_run_selftest envZero devFresh readyS
       = (.notInitialized, false, devFresh, readyS)) :=
  ⟨rfl, C10_not_initialized_guards envZero devFresh readyS 1 128 true cfgDemo rfl⟩
